import Mathlib

/-!
Verification of the dsc.py client library (seven7ty/dsc.py).

This file gives a shallow embedding, in Lean 4, of the parts of the library
that the checked properties talk about: the `Colour`, `Embed`, `User`,
`Link` and `App` value types from `dsc/models.py`, the slug normalizer and
redirect classifier from `dsc/client.py` and `dsc/utils.py`, the status /
response-code error mapping from both files, and the request-building and
response-dispatch logic of the `Client` operations.

Conventions of the embedding:
* Python strings are Lean `String`s; all slicing and tests are done on the
  underlying `List Char` (Python indexes code points, as does `String.data`).
* JSON values are the `JVal` inductive; Python dicts are association lists.
* Code that can raise returns `Except PyExc α`; a raised exception is
  `Except.error (PyExc.exc typeName message)`.
* Python `int` is modelled by `Int` (or `Nat` for the 24-bit colour values
  the colour claims quantify over); truthiness is `jTruthy`.
-/

namespace Dsc

/-- A raised Python exception: its class name and message. -/
inductive PyExc where
  | exc (typeName : String) (msg : String)
deriving DecidableEq

/-- Python `s.startswith(p)`, as a prefix test on the code points. -/
def strStarts (s p : String) : Bool :=
  p.data.isPrefixOf s.data

/-- Python `s[n:]`: drop the first `n` code points. -/
def strDrop (s : String) (n : Nat) : String :=
  ⟨s.data.drop n⟩

/-- Python `s.lower()` (ASCII case mapping, which is all the library
ever lowercases). -/
def strLower (s : String) : String :=
  ⟨s.data.map Char.toLower⟩

/-- JSON-ish values, as decoded from a response body or placed in a
request body. -/
inductive JVal where
  | jnull
  | jbool (b : Bool)
  | jint (n : Int)
  | jstr (s : String)
  | jarr (xs : List JVal)
  | jobj (fields : List (String × JVal))

/-- Python truthiness of a JSON value (`bool(x)`). -/
def jTruthy : JVal → Bool
  | .jnull => false
  | .jbool b => b
  | .jint n => n != 0
  | .jstr s => s ≠ ""
  | .jarr xs => !xs.isEmpty
  | .jobj fs => !fs.isEmpty

/-- Python `str(x)` on a JSON value (only the string case is exercised by
the claims; the other cases follow Python's conventions). -/
def pyStr : JVal → String
  | .jnull => "None"
  | .jbool b => if b then "True" else "False"
  | .jint n => toString n
  | .jstr s => s
  | .jarr _ => "[...]"
  | .jobj _ => "{...}"

/-- Python `int(x)` on a JSON value: ints pass through, bools become 0/1,
decimal strings are parsed, anything else raises. -/
def pyInt : JVal → Except PyExc Int
  | .jint n => .ok n
  | .jbool b => .ok (if b then 1 else 0)
  | .jstr s =>
    match s.toInt? with
    | some n => .ok n
    | none => .error (.exc "ValueError" ("invalid literal for int() with base 10: " ++ s))
  | .jnull => .error (.exc "TypeError" "int() argument must be a string or a number, not NoneType")
  | _ => .error (.exc "TypeError" "int() argument must be a string or a number")

/-- Indexing a Python dict: `d[k]`, raising `KeyError` when absent. -/
def lookupK (d : List (String × JVal)) (k : String) : Except PyExc JVal :=
  match d.lookup k with
  | some v => .ok v
  | none => .error (.exc "KeyError" k)

/-- A value used where a dict is required (`.get` on it): non-dicts raise. -/
def asDict : JVal → Except PyExc (List (String × JVal))
  | .jobj fs => .ok fs
  | _ => .error (.exc "AttributeError" "get")

/-- Iterating a JSON value (`for x in v`): only lists iterate to their
elements in the situations the claims exercise; other values raise. -/
def pyIter : JVal → Except PyExc (List JVal)
  | .jarr xs => .ok xs
  | _ => .error (.exc "TypeError" "object is not iterable")

/-- Python dict assignment `d[k] = v`: replace the binding if the key is
present, otherwise append it. -/
def dictSet (d : List (String × JVal)) (k : String) (v : JVal) : List (String × JVal) :=
  if (d.lookup k).isSome then
    d.map (fun kv => if kv.1 = k then (k, v) else kv)
  else
    d ++ [(k, v)]

/-! ## Colour (dsc/models.py, class Colour)

`Colour` stores a Python int.  The colour claims quantify over the 24-bit
range, so the value is modelled as a `Nat`; `>> k` and `& 0xff` become
division and remainder by the corresponding powers of two. -/

structure Colour where
  value : Nat
deriving DecidableEq

/-- One hex digit `0..f` (lowercase, as `'{:x}'.format` produces). -/
def hexDigitChar (n : Nat) : Char :=
  if n < 10 then Char.ofNat (48 + n) else Char.ofNat (87 + n)

/-- Hex digits of `n`, least significant first; `[]` for `0`.  The first
argument is fuel (always called with fuel `= n`, which suffices since the
argument at least halves each step). -/
def natToHexRevAux : Nat → Nat → List Char
  | 0, _ => []
  | _, 0 => []
  | fuel + 1, n + 1 => hexDigitChar ((n + 1) % 16) :: natToHexRevAux fuel ((n + 1) / 16)

def natToHexRev (n : Nat) : List Char := natToHexRevAux n n

/-- Hex digits of `n`, most significant first (Python `'{:x}'.format(n)`
for positive `n`; empty for `0`, where Python gives `"0"`, but the only
use pads with `'0'` to six characters, which agrees on `0`). -/
def natToHex (n : Nat) : List Char := (natToHexRev n).reverse

/-- Left-pad with `'0'` to six characters (the `0>6` in `'#{:0>6x}'`). -/
def pad6 (ds : List Char) : List Char := List.replicate (6 - ds.length) '0' ++ ds

/-- `Colour.__str__`: `'#{:0>6x}'.format(self.value)`. -/
def colour_str (c : Colour) : String := ⟨'#' :: pad6 (natToHex c.value)⟩

/-- Value of one hex character, accepting both cases (as `int(_, 16)` does). -/
def hexDigitVal (c : Char) : Option Nat :=
  if '0' ≤ c ∧ c ≤ '9' then some (c.toNat - 48)
  else if 'a' ≤ c ∧ c ≤ 'f' then some (c.toNat - 87)
  else if 'A' ≤ c ∧ c ≤ 'F' then some (c.toNat - 55)
  else none

def parseHexAux : List Char → Nat → Option Nat
  | [], acc => some acc
  | c :: cs, acc =>
    match hexDigitVal c with
    | some d => parseHexAux cs (acc * 16 + d)
    | none => none

/-- Python `int(str, 16)` restricted to plain hex-digit strings (no sign,
no `0x`, no underscores — none of which the colour strings contain). -/
def parseHex16 (ds : List Char) : Except PyExc Nat :=
  if ds.isEmpty then .error (.exc "ValueError" "invalid literal for int() with base 16")
  else
    match parseHexAux ds 0 with
    | some n => .ok n
    | none => .error (.exc "ValueError" "invalid literal for int() with base 16")

/-- `Colour.__init__` on an int value. -/
def colour_of_int (v : Nat) : Colour := ⟨v⟩

/-- `Colour.__init__` on a string value: `value = int(value[1:], 16)` —
the first character is dropped and the rest parsed as hex. -/
def colour_of_str (s : String) : Except PyExc Colour := do
  let n ← parseHex16 (s.data.drop 1)
  .ok ⟨n⟩

/-- `Colour._get_byte`: `(self.value >> (8 * byte)) & 0xff`. -/
def Colour.getByte (c : Colour) (byte : Nat) : Nat :=
  c.value / 2 ^ (8 * byte) % 256

/-- red component (`_get_byte(2)`). -/
def Colour.r (c : Colour) : Nat := c.getByte 2

/-- green component (`_get_byte(1)`). -/
def Colour.g (c : Colour) : Nat := c.getByte 1

/-- blue component (`_get_byte(0)`). -/
def Colour.b (c : Colour) : Nat := c.getByte 0

/-- `Colour.from_rgb`: `cls((r << 16) + (g << 8) + b)`. -/
def Colour.fromRgb (r g b : Nat) : Colour := ⟨r * 2 ^ 16 + g * 2 ^ 8 + b⟩

/-! ## Embed (dsc/models.py, class Embed) -/

/-- An `Embed` as produced by `Embed.__init__`.  The constructor only
succeeds when the `color` keyword holds a `Colour` instance (see
`embed_init`), so the `color` field is a `Colour`.  The `saying` slot is
declared in `__slots__` but never assigned by `__init__`, so it has no
field here. -/
structure Embed where
  title : Option String
  description : Option String
  image : Option String
  color : Colour

/-- The possible values of the `color` keyword argument of
`Embed.__init__`: omitted/None, an int, a str, a `Colour`, or a value of
some other class (only its class name is ever used). -/
inductive ColorArg where
  | noneA
  | intA (n : Nat)
  | strA (s : String)
  | colourA (c : Colour)
  | otherA (typeName : String)

/-- `type(c).__name__` for a `ColorArg`. -/
def colorArgTypeName : ColorArg → String
  | .noneA => "NoneType"
  | .intA _ => "int"
  | .strA _ => "str"
  | .colourA _ => "Colour"
  | .otherA t => t

/-- The condition `type(c) is Union[str, int]` from `Embed.__init__`:
it compares the runtime class of `c` with the `typing.Union[str, int]`
object, which is never the class of any value, so it is `False` for every
argument. -/
def typeIsUnionStrInt (_ : ColorArg) : Bool := false

/-- `Embed.__init__(**kwargs)`.  `image`, `description` and `title` are
taken from the keyword arguments unchecked (absent ↦ `None`); the `color`
branch tests `type(c) is Union[str, int]` (always false), then
`isinstance(c, Color)`, and otherwise raises `TypeError`. -/
def embed_init (title description image : Option String) (color : ColorArg) :
    Except PyExc Embed :=
  if typeIsUnionStrInt color then
    -- dead branch of the source: `self.color = Color(c)`
    match color with
    | .intA n => .ok ⟨title, description, image, colour_of_int n⟩
    | .strA s => do
      let c ← colour_of_str s
      .ok ⟨title, description, image, c⟩
    | _ => .error (.exc "TypeError" "unreachable")
  else
    match color with
    | .colourA c => .ok ⟨title, description, image, c⟩
    | c =>
      .error (.exc "TypeError"
        ("Expected color to be \x27int\x27, \x27str\x27 or \x27dsc.Colour\x27 - got "
          ++ colorArgTypeName c))

/-- An `Embed` as produced by `Embed.from_dict` (which bypasses
`__init__` via `__new__` and copies raw dict values, performing no type
checks — so all fields are raw JSON values here, including `color`). -/
structure EmbedFromDict where
  saying : JVal
  image : JVal
  color : JVal
  description : JVal
  title : JVal

/-- `Embed.from_dict(data)`. -/
def embed_from_dict (d : List (String × JVal)) : EmbedFromDict :=
  { saying := (d.lookup "saying").getD .jnull
    image := (d.lookup "image").getD .jnull
    color := (d.lookup "color").getD .jnull
    description := (d.lookup "description").getD .jnull
    title := (d.lookup "title").getD .jnull }

/-! ## User / Link / App (dsc/models.py) -/

/-- `datetime.utcfromtimestamp(ms / 1000)`, modelled opaquely by the
millisecond value it was built from (no claim inspects a timestamp). -/
structure PyDatetime where
  ms : Int

def PyDatetime.ofMs (n : Int) : PyDatetime := ⟨n⟩

/-- A `User` (dsc/models.py).  Fields assigned raw by `__init__` keep
their `JVal`; `id` and `joined_at` go through `int(...)`. -/
structure User where
  id : Int
  premium : JVal
  verified : JVal
  joined_at : PyDatetime
  blacklisted : JVal

/-- `User.__init__(data)`: `int(data.get('id'))`, `data.get('premium',
False)`, `data.get('verified', False)`,
`utcfromtimestamp(int(data.get('joined_at')) / 1000)`,
`data.get('blacklisted', False)` — in source order, since the int
conversions can raise. -/
def user_from_dict (d : List (String × JVal)) : Except PyExc User := do
  let idv ← pyInt ((d.lookup "id").getD .jnull)
  let premium := (d.lookup "premium").getD (.jbool false)
  let verified := (d.lookup "verified").getD (.jbool false)
  let jm ← pyInt ((d.lookup "joined_at").getD .jnull)
  let blacklisted := (d.lookup "blacklisted").getD (.jbool false)
  .ok ⟨idv, premium, verified, .ofMs jm, blacklisted⟩

/-- A `Link` (dsc/models.py). -/
structure Link where
  id : JVal
  owner_id : JVal
  redirect : JVal
  created_at : PyDatetime
  bumped_at : Option PyDatetime
  unlisted : JVal
  disabled : JVal
  embed : EmbedFromDict
  type : JVal
  domain : JVal

/-- `Link.__init__(data)`, in source order: `bump = data.get('bumped_at')`;
raw gets for `id`, `owner`, `redirect`; `int(data.get('created_at'))`
(can raise); `int(bump)` only `if bump` is truthy; raw gets for
`unlisted`, `disabled`; `Embed.from_dict(data['meta'])` (KeyError when
`'meta'` is absent, and `from_dict` needs a dict); raw gets for `type`
and `domain`. -/
def link_from_dict (d : List (String × JVal)) : Except PyExc Link := do
  let bump := (d.lookup "bumped_at").getD .jnull
  let idv := (d.lookup "id").getD .jnull
  let owner := (d.lookup "owner").getD .jnull
  let redirect := (d.lookup "redirect").getD .jnull
  let created ← pyInt ((d.lookup "created_at").getD .jnull)
  let bumped ←
    if jTruthy bump then do
      let b ← pyInt bump
      pure (some (PyDatetime.ofMs b))
    else
      pure none
  let unlisted := (d.lookup "unlisted").getD (.jbool false)
  let disabled := (d.lookup "disabled").getD (.jbool false)
  let metaV ← lookupK d "meta"
  let metaD ← asDict metaV
  let embed := embed_from_dict metaD
  let ty := (d.lookup "type").getD .jnull
  let domain := (d.lookup "domain").getD .jnull
  .ok ⟨idv, owner, redirect, .ofMs created, bumped, unlisted, disabled, embed, ty, domain⟩

/-- `Link(data=v)` where `v` is an arbitrary JSON value (`data.get`
requires a dict). -/
def link_from_val (v : JVal) : Except PyExc Link := do
  let d ← asDict v
  link_from_dict d

/-- An `App` (dsc/models.py). -/
structure App where
  id : JVal
  owner_id : JVal
  created_at : PyDatetime
  verified : JVal
  key : JVal

/-- `App.__init__(data)`: raw gets for `id` and `owner_id`;
`int(data['created_at'])` (KeyError when absent, then int conversion);
raw gets for `verified` (default `False`) and `key` (default `None`). -/
def app_from_dict (d : List (String × JVal)) : Except PyExc App := do
  let idv := (d.lookup "id").getD .jnull
  let owner := (d.lookup "owner_id").getD .jnull
  let cav ← lookupK d "created_at"
  let ca ← pyInt cav
  let verified := (d.lookup "verified").getD (.jbool false)
  let key := (d.lookup "key").getD .jnull
  .ok ⟨idv, owner, .ofMs ca, verified, key⟩

/-- `App(data=v)` where `v` is an arbitrary JSON value. -/
def app_from_val (v : JVal) : Except PyExc App := do
  let d ← asDict v
  app_from_dict d

/-! ## Status / response-code error mapping -/

/-- The exception class names defined in dsc/exceptions.py (everything
`from .exceptions import *` brings into dsc/utils.py). -/
def exceptionsDefinedNames : List String :=
  ["NoToken", "Unauthorized", "Forbidden", "BearerNoToken", "BadLinkType",
   "InternalServerError", "BadRequest", "ServiceUnavailable"]

/-- The status-keyed entries of the `correlation` dict built inside
`utils.raise_for_status`, as (status, exception-class-name) pairs, in
source order. -/
def utilsCorrelationStatusKeys : List (Nat × String) :=
  [(401, "Unauthorized"), (400, "BadRequest"), (413, "RequestEntityTooLarge"),
   (403, "Forbidden"), (404, "NotFound")]

/-- The exception-keyed entries of the same dict: class name ↦ message. -/
def utilsCorrelationMessages : List (String × String) :=
  [("Unauthorized", "The token passed is invalid"),
   ("Forbidden", "Attempted to access premium features or the token is invalid"),
   ("BadRequest", "The arguments passed are malformed"),
   ("RequestEntityTooLarge", "The passed link slug or password is too long"),
   ("NotFound", "The link doesn\x27t exist")]

/-- The first exception name referenced by the `correlation` dict literal
that is not defined in scope (evaluating the dict literal raises
`NameError` for it).  `RequestEntityTooLarge` and `NotFound` are used in
dsc/utils.py but never defined in dsc/exceptions.py. -/
def firstUndefinedName : Option String :=
  (utilsCorrelationStatusKeys.map Prod.snd).find?
    (fun n => !(exceptionsDefinedNames.contains n))

/-- `utils.raise_for_status(status)`.  Evaluating the `correlation` dict
literal resolves each exception name first; since
`RequestEntityTooLarge` is undefined, every call raises `NameError`.
Were all names defined, the status would be looked up among the
status-keyed entries and the mapped exception raised (nothing is raised
for an unknown status). -/
def utils_raise_for_status (status : Nat) : Except PyExc Unit :=
  match firstUndefinedName with
  | some n => .error (.exc "NameError" ("name \x27" ++ n ++ "\x27 is not defined"))
  | none =>
    match utilsCorrelationStatusKeys.lookup status with
    | some en => .error (.exc en ((utilsCorrelationMessages.lookup en).getD ""))
    | none => .ok ()

/-- The `ResponseCodes` enum from dsc/enums.py: member name ↦ (code,
meaning). -/
def responseCodes : List (String × Nat × String) :=
  [("payload_received", 200, "The content was successfully returned."),
   ("rate_limit", 429, "You have hit a rate limit"),
   ("invalid_key", 401, "The API key you provided is invalid"),
   ("not_found", 404, "The content was not found or returned blank"),
   ("owner_blacklisted", 403, "The owner is blacklisted so nothing is returned"),
   ("version_deprecated", 410, "The version of the API is no longer available"),
   ("bad_request", 400, "Something in the request is not valid"),
   ("link_taken", 400, "The link is not available, it is taken"),
   ("link_created", 201, "Link was created successfully"),
   ("link_updated", 200, "The link was updated successfully"),
   ("link_deleted", 200, "The link was deleted successfully"),
   ("owner_mismatch", 403, "You are not the owner so you can\x27t do it"),
   ("whitelist_only", 403, "The action is reserved for whitelisted apps only ")]

/-- `Client._raise_for_status(response)` (dsc/client.py): takes the
response JSON, reads `response['code']`, lowercases it, resolves it as a
`ResponseCodes` member (`getattr` raises `AttributeError` for an unknown
name), and raises `DSCGGError` whenever the member's numeric code does
not start with the character `'2'`. -/
def client_raise_for_status (body : List (String × JVal)) : Except PyExc Unit := do
  let codeV ← lookupK body "code"
  let code := strLower (pyStr codeV)
  match responseCodes.lookup code with
  | none => .error (.exc "AttributeError" code)
  | some (n, meaning) =>
    if !(strStarts (toString n) "2") then
      .error (.exc "DSCGGError" (toString n ++ " (" ++ code ++ "): " ++ meaning))
    else
      .ok ()

/-! ## Link normalizer and redirect classifier -/

/-- `BASE` from dsc/client.py. -/
def BASE : String := "https://api.dsc.gg/v2"

/-- `Client.format_link` (dsc/client.py): strips `https://dsc.gg/`,
`http://dsc.gg/`, or `dsc.gg/`. -/
def client_format_link (link : String) : String :=
  if strStarts link "https://dsc.gg/" then strDrop link 15
  else if strStarts link "http://dsc.gg/" then strDrop link 14
  else if strStarts link "dsc.gg/" then strDrop link 7
  else link

/-- `utils.format_link` (dsc/utils.py): strips only `https://dsc.gg/` or
`dsc.gg/` — it has no case for `http://dsc.gg/`. -/
def utils_format_link (link : String) : String :=
  if strStarts link "https://dsc.gg/" then strDrop link 15
  else if strStarts link "dsc.gg/" then strDrop link 7
  else link

/-- The `LinkType` enum of dsc/enums.py (string-valued, used by
`Client.match_link_type`). -/
inductive LinkTypeE where
  | server
  | template
  | bot
deriving DecidableEq

/-- `LinkType(value)`: enum lookup by value over the dsc/enums.py
members. -/
def linkTypeOfValue (s : String) : Option LinkTypeE :=
  if s = "https://discord.gg/" then some .server
  else if s = "https://discord.com/template/" then some .template
  else if s = "https://discord.com/oauth2/" then some .bot
  else none

/-- The `cor` dict of `Client.match_link_type`: member ↦ tag. -/
def corTag : LinkTypeE → String
  | .server => "server"
  | .bot => "bot"
  | .template => "template"

/-- `link = 'https://' + link if not link.startswith('https://')`. -/
def schemeComplete (link : String) : String :=
  if !(strStarts link "https://") then "https://" ++ link else link

/-- Index of the last `'/'` in a character list (`str.rindex('/')`);
`none` when absent (where Python raises `ValueError`). -/
def rindexSlash : List Char → Option Nat
  | [] => none
  | c :: cs =>
    match rindexSlash cs with
    | some i => some (i + 1)
    | none => if c = '/' then some 0 else none

/-- `link[:link.rindex('/') + 1]`: the prefix of the string through its
last `'/'`; `none` when the string has no `'/'`. -/
def truncateToLastSlash (s : String) : Option String :=
  (rindexSlash s.data).map (fun i => ⟨s.data.take (i + 1)⟩)

/-- `Client.match_link_type(link)` (dsc/client.py): completes the scheme,
truncates through the last `'/'` (`rindex` raising `ValueError` outside
the `try` if no slash exists — which cannot happen after scheme
completion), then resolves the truncated prefix as a `LinkType` value;
an unknown value (ValueError) falls through to the tag `'link'`. -/
def client_match_link_type (link : String) : Except PyExc String :=
  let link := schemeComplete link
  match truncateToLastSlash link with
  | none => .error (.exc "ValueError" "substring not found")
  | some lf =>
    match linkTypeOfValue lf with
    | some t => .ok (corTag t)
    | none => .ok "link"

/-- The classifier mapping the spec describes, as a function of the
scheme-completed, last-slash-truncated prefix (stated from the spec, to
be compared with `client_match_link_type`). -/
def spec_classify_tag (t : String) : String :=
  if t = "https://discord.gg/" then "server"
  else if t = "https://discord.com/template/" then "template"
  else if t = "https://discord.com/oauth2/" then "bot"
  else "link"

/-! ## Client operations (dsc/client.py) -/

/-- An HTTP response as the client sees it: the transport status code and
the decoded JSON body (`await res.json()`). -/
structure ApiResponse where
  status : Nat
  body : List (String × JVal)

/-- `Client.get_user`: on `status == 200 and bool(res_['success'])`,
decode `res_['payload']` into a `User`; otherwise raise for status unless
it is 404; return `None` when nothing was decoded. -/
def get_user (resp : ApiResponse) : Except PyExc (Option User) := do
  let cond ←
    if resp.status = 200 then do
      let s ← lookupK resp.body "success"
      pure (jTruthy s)
    else
      pure false
  if cond then do
    let payload ← lookupK resp.body "payload"
    let pd ← asDict payload
    let u ← user_from_dict pd
    pure (some u)
  else do
    if resp.status ≠ 404 then client_raise_for_status resp.body else pure ()
    pure none

/-- `Client.get_link`: on `status == 200`, decode `payload` into a
`Link`; otherwise raise for status unless it is 404; return `None` when
nothing was decoded. -/
def get_link (resp : ApiResponse) : Except PyExc (Option Link) := do
  if resp.status = 200 then do
    let payload ← lookupK resp.body "payload"
    let pd ← asDict payload
    let l ← link_from_dict pd
    pure (some l)
  else do
    if resp.status ≠ 404 then client_raise_for_status resp.body else pure ()
    pure none

/-- The URL `Client.get_user_links` requests: `BASE + f'/user/{user_id}/links'`. -/
def get_user_links_url (user_id : Int) : String :=
  BASE ++ "/user/" ++ toString user_id ++ "/links"

/-- The URL `Client.get_user_apps` requests: `BASE + f'/user/{user_id}/links'`
(the same literal f-string as `get_user_links`; there is no apps
endpoint). -/
def get_user_apps_url (user_id : Int) : String :=
  BASE ++ "/user/" ++ toString user_id ++ "/links"

/-- `Client.get_user_links` response handling: on 200 decode every
payload element into a `Link`; on 404 return `[]` without raising;
otherwise raise for status and return `[]`. -/
def get_user_links (resp : ApiResponse) : Except PyExc (List Link) := do
  if resp.status = 200 then do
    let payload ← lookupK resp.body "payload"
    let xs ← pyIter payload
    xs.mapM link_from_val
  else do
    if resp.status ≠ 404 then client_raise_for_status resp.body else pure ()
    pure []

/-- `Client.get_user_apps` response handling: identical to
`get_user_links` except each element is decoded into an `App`. -/
def get_user_apps (resp : ApiResponse) : Except PyExc (List App) := do
  if resp.status = 200 then do
    let payload ← lookupK resp.body "payload"
    let xs ← pyIter payload
    xs.mapM app_from_val
  else do
    if resp.status ≠ 404 then client_raise_for_status resp.body else pure ()
    pure []

/-- The URL-building (pre-network) part of `Client.search`:
`url = BASE + f"/search?q={query}"`, then `&limit={limit}` when `limit`
is truthy, then `if link_type.lower() in ['server', 'bot', 'template']`
— which calls `.lower()` on the argument even when it is the default
`None`, raising `AttributeError` before any request is made. -/
def buildSearchUrl (query : String) (limit : Option Int) (link_type : Option String) :
    Except PyExc String := do
  let url := BASE ++ "/search?q=" ++ query
  let url := match limit with
    | some n => if n ≠ 0 then url ++ "&limit=" ++ toString n else url
    | none => url
  match link_type with
  | none =>
    .error (.exc "AttributeError" "\x27NoneType\x27 object has no attribute \x27lower\x27")
  | some t =>
    if ["server", "bot", "template"].contains (strLower t) then
      .ok (url ++ "&type=" ++ strLower t)
    else
      .ok url

/-- The value passed as the `embed` argument of `create_link` /
`update_link` when it is not `None`: either an `Embed` instance or a
value of some other class (only its class name is used, in the
`TypeError` message). -/
inductive PyEmbedArg where
  | isEmbed (e : Embed)
  | notEmbed (typeName : String)

/-- `embed.__dict__` for an `Embed` built by `__init__`: `Embed` declares
`__slots__` (and inherits only from `object`), so its instances have no
`__dict__` attribute — the lookup raises `AttributeError`. -/
def Embed.dictAttr (_ : Embed) : Option (List (String × JVal)) := none

/-- `Client._insert_embed_fields(body, embed)`: iterates
`embed.__dict__.items()` — which raises `AttributeError`, because `Embed`
uses `__slots__` — and writes each value into `body['meta'][key]` — which
would raise `KeyError` anyway, since no caller puts a `'meta'` key into
`body`. -/
def insert_embed_fields (body : List (String × JVal)) (e : Embed) :
    Except PyExc (List (String × JVal)) := do
  let attrs ←
    match e.dictAttr with
    | some a => Except.ok a
    | none =>
      Except.error (.exc "AttributeError"
        "\x27Embed\x27 object has no attribute \x27__dict__\x27")
  attrs.foldlM
    (fun b kv => do
      let metaV ← lookupK b "meta"
      let metaD ← asDict metaV
      pure (dictSet b "meta" (.jobj (dictSet metaD kv.1 kv.2))))
    body

/-- An HTTP request the client is about to issue: method, URL, JSON body. -/
structure HttpRequest where
  method : String
  url : String
  body : List (String × JVal)

/-- The pre-network part of `Client.create_link`: normalize the slug,
strip `https://` from the redirect (`str.replace` removes every
occurrence), classify the redirect to get `type`, build the body, check
and merge the embed, add optional `password` and `unlisted`, and form the
POST request.  Any exception on the way means no request is issued. -/
def create_link_request (link redirect : String) (embed : Option PyEmbedArg)
    (password : Option String) (unlisted : Bool) : Except PyExc HttpRequest := do
  let link := client_format_link link
  let redirect :=
    if strStarts redirect "https://" then redirect.replace "https://" "" else redirect
  let ty ← client_match_link_type redirect
  let body : List (String × JVal) := [("type", .jstr ty), ("redirect", .jstr redirect)]
  let body ←
    match embed with
    | none => pure body
    | some (.isEmbed e) => insert_embed_fields body e
    | some (.notEmbed tn) =>
      .error (.exc "TypeError" ("Embed must be type \x27dsc.Embed, got \x27" ++ tn ++ "\x27"))
  let body := match password with
    | some p => dictSet body "password" (.jstr p)
    | none => body
  let body := if unlisted then dictSet body "unlisted" (.jbool true) else body
  .ok ⟨"POST", BASE ++ "/link/" ++ link, body⟩

/-- The pre-network part of `Client.update_link`: like `create_link` but
the body starts from `{"link": link}`, the redirect is optional and
appended last, and the request is a PATCH. -/
def update_link_request (link : String) (redirect : Option String)
    (embed : Option PyEmbedArg) (password : Option String) (unlisted : Bool) :
    Except PyExc HttpRequest := do
  let link := client_format_link link
  let body : List (String × JVal) := [("link", .jstr link)]
  let body ←
    match embed with
    | none => pure body
    | some (.isEmbed e) => insert_embed_fields body e
    | some (.notEmbed tn) =>
      .error (.exc "TypeError" ("Embed must be type \x27dsc.Embed, got \x27" ++ tn ++ "\x27"))
  let body := match password with
    | some p => dictSet body "password" (.jstr p)
    | none => body
  let body := if unlisted then dictSet body "unlisted" (.jbool true) else body
  let body := match redirect with
    | some r => dictSet body "redirect" (.jstr r)
    | none => body
  .ok ⟨"PATCH", BASE ++ "/link/" ++ link, body⟩

/-! ## Lemmas: string prefixes -/

theorem strStarts_append (p X : String) : strStarts (p ++ X) p = true := by
  simp only [strStarts, String.data_append, List.isPrefixOf_iff_prefix]
  exact List.prefix_append _ _

theorem strStarts_false_of_take_ne (p q X : String) (n : Nat)
    (hn₁ : n ≤ p.data.length) (hn₂ : n ≤ q.data.length)
    (hne : p.data.take n ≠ q.data.take n) :
    strStarts (q ++ X) p = false := by
  simp only [strStarts, String.data_append]
  rw [Bool.eq_false_iff]
  intro hp
  obtain ⟨t, ht⟩ := List.isPrefixOf_iff_prefix.mp hp
  apply hne
  calc p.data.take n = (p.data ++ t).take n := (List.take_append_of_le_length hn₁).symm
    _ = (q.data ++ X.data).take n := by rw [ht]
    _ = q.data.take n := List.take_append_of_le_length hn₂

theorem strDrop_append (p X : String) (n : Nat) (hn : p.data.length = n) :
    strDrop (p ++ X) n = X := by
  apply String.ext
  show ((p ++ X).data).drop n = X.data
  rw [String.data_append, ← hn]
  exact List.drop_left _ _

/-! ## Lemmas: the redirect classifier is total -/

theorem rindexSlash_isSome_of_mem {l : List Char} (h : '/' ∈ l) :
    (rindexSlash l).isSome = true := by
  induction l with
  | nil => cases h
  | cons c cs ih =>
    rw [rindexSlash]
    cases hm : rindexSlash cs with
    | some i => simp
    | none =>
      rcases List.mem_cons.mp h with h1 | h2
      · rw [← h1]; simp
      · have := ih h2
        rw [hm] at this
        simp at this

theorem schemeComplete_has_slash (s : String) : '/' ∈ (schemeComplete s).data := by
  rw [schemeComplete]
  by_cases h : strStarts s "https://"
  · have hp : ("https://" : String).data <+: s.data :=
      List.isPrefixOf_iff_prefix.mp h
    simp only [h, Bool.not_true, Bool.false_eq_true, if_false]
    exact hp.subset (by decide)
  · simp only [Bool.eq_false_iff.mpr h, Bool.not_false, if_true, String.data_append]
    exact List.mem_append_left _ (by decide)

theorem truncateToLastSlash_schemeComplete_isSome (s : String) :
    (truncateToLastSlash (schemeComplete s)).isSome = true := by
  rw [truncateToLastSlash]
  cases h : rindexSlash (schemeComplete s).data with
  | some i => simp
  | none =>
    have hs := rindexSlash_isSome_of_mem (schemeComplete_has_slash s)
    rw [h] at hs
    simp at hs

theorem client_match_link_type_total (s : String) :
    ∃ tag, client_match_link_type s = .ok tag := by
  rw [client_match_link_type]
  obtain ⟨t, ht⟩ :=
    Option.isSome_iff_exists.mp (truncateToLastSlash_schemeComplete_isSome s)
  rw [ht]
  cases hl : linkTypeOfValue t with
  | some lt => exact ⟨corTag lt, by simp [hl]⟩
  | none => exact ⟨"link", by simp [hl]⟩

/-! ## Lemmas: hex round trip -/

theorem hexDigitVal_hexDigitChar {d : Nat} (h : d < 16) :
    hexDigitVal (hexDigitChar d) = some d := by
  interval_cases d <;> rfl

theorem parseHexAux_append (xs ys : List Char) (acc : Nat) :
    parseHexAux (xs ++ ys) acc =
      match parseHexAux xs acc with
      | some m => parseHexAux ys m
      | none => none := by
  induction xs generalizing acc with
  | nil => rfl
  | cons c cs ih =>
    rw [List.cons_append, parseHexAux, parseHexAux]
    cases hv : hexDigitVal c with
    | some d => simpa using ih (acc * 16 + d)
    | none => rfl

theorem parseHexAux_replicate_zero (k : Nat) (ds : List Char) :
    parseHexAux (List.replicate k '0' ++ ds) 0 = parseHexAux ds 0 := by
  induction k with
  | zero => rfl
  | succ n ih =>
    rw [List.replicate_succ, List.cons_append, parseHexAux]
    have h0 : hexDigitVal '0' = some 0 := rfl
    rw [h0]
    simpa using ih

theorem natToHexRevAux_zero (fuel : Nat) : natToHexRevAux fuel 0 = [] := by
  cases fuel <;> rfl

theorem parseHexAux_natToHexRevAux (fuel : Nat) :
    ∀ n acc, n ≤ fuel → n ≠ 0 →
      parseHexAux ((natToHexRevAux fuel n).reverse) acc =
        some (acc * 16 ^ (natToHexRevAux fuel n).length + n) := by
  induction fuel with
  | zero =>
    intro n acc hn h0
    exact absurd (Nat.le_zero.mp hn) h0
  | succ f ih =>
    intro n acc hn h0
    match n, h0 with
    | n + 1, _ =>
      rw [natToHexRevAux, List.reverse_cons, parseHexAux_append]
      have hmod : (n + 1) % 16 < 16 := Nat.mod_lt _ (by norm_num)
      by_cases hq : (n + 1) / 16 = 0
      · rw [hq, natToHexRevAux_zero]
        simp only [List.reverse_nil, parseHexAux, hexDigitVal_hexDigitChar hmod,
          List.length_cons, List.length_nil, pow_one, Nat.zero_add]
        have := Nat.div_add_mod (n + 1) 16
        congr 1
        omega
      · have hlt : (n + 1) / 16 < n + 1 := Nat.div_lt_self (Nat.succ_pos n) (by norm_num)
        have hle : (n + 1) / 16 ≤ f := by omega
        rw [ih _ acc hle hq]
        simp only [parseHexAux, hexDigitVal_hexDigitChar hmod, List.length_cons]
        have hdm := Nat.div_add_mod (n + 1) 16
        congr 1
        rw [pow_succ, ← mul_assoc]
        generalize acc * 16 ^ (natToHexRevAux f ((n + 1) / 16)).length = K
        omega

theorem parseHexAux_natToHex (v : Nat) (h0 : v ≠ 0) :
    parseHexAux (natToHex v) 0 = some v := by
  rw [natToHex, natToHexRev]
  rw [parseHexAux_natToHexRevAux v v 0 (le_refl v) h0]
  simp

theorem natToHex_ne_nil (v : Nat) (h0 : v ≠ 0) : natToHex v ≠ [] := by
  rw [natToHex, natToHexRev]
  match v, h0 with
  | n + 1, _ =>
    rw [natToHexRevAux]
    simp

theorem parseHex16_pad6_natToHex (v : Nat) (h0 : v ≠ 0) :
    parseHex16 (pad6 (natToHex v)) = .ok v := by
  rw [pad6, parseHex16]
  have hne : List.replicate (6 - (natToHex v).length) '0' ++ natToHex v ≠ [] := by
    simp [natToHex_ne_nil v h0]
  rw [if_neg (by simpa using hne)]
  rw [parseHexAux_replicate_zero, parseHexAux_natToHex v h0]

theorem fromRgb_accessors (r g b : Nat) (hr : r ≤ 255) (hg : g ≤ 255) (hb : b ≤ 255) :
    (Colour.fromRgb r g b).r = r ∧ (Colour.fromRgb r g b).g = g ∧
      (Colour.fromRgb r g b).b = b := by
  refine ⟨?_, ?_, ?_⟩ <;>
  · simp only [Colour.fromRgb, Colour.r, Colour.g, Colour.b, Colour.getByte]
    norm_num
    omega

theorem colour_of_str_colour_str (v : Nat) :
    colour_of_str (colour_str ⟨v⟩) = .ok ⟨v⟩ := by
  by_cases h0 : v = 0
  · subst h0; rfl
  · have h1 : (colour_str ⟨v⟩).data.drop 1 = pad6 (natToHex v) := rfl
    simp only [colour_of_str, h1, parseHex16_pad6_natToHex v h0]
    rfl

theorem not_true_of_false {b : Bool} (h : b = false) : ¬ b = true := by
  simp [h]

theorem exc_pure {α : Type} (a : α) : (pure a : Except PyExc α) = .ok a := rfl

theorem exc_bind_ok {α β : Type} (a : α) (f : α → Except PyExc β) :
    (Except.ok a >>= f : Except PyExc β) = f a := rfl

theorem exc_bind_error {α β : Type} (e : PyExc) (f : α → Except PyExc β) :
    ((Except.error e : Except PyExc α) >>= f) = Except.error e := rfl

theorem exc_map_ok {α β : Type} (f : α → β) (a : α) :
    (f <$> (Except.ok a : Except PyExc α)) = .ok (f a) := rfl

theorem exc_map_error {α β : Type} (f : α → β) (e : PyExc) :
    (f <$> (Except.error e : Except PyExc α)) = .error e := rfl

theorem client_match_link_type_of_truncate (s t : String)
    (h : truncateToLastSlash (schemeComplete s) = some t) :
    client_match_link_type s = .ok (spec_classify_tag t) := by
  rw [client_match_link_type, h]
  simp only [linkTypeOfValue, spec_classify_tag]
  split_ifs <;> rfl

/-! ## The claims -/

/-- C1 (corrected): the library defines no dedicated RateLimited failure
and no error policy.  `Client._raise_for_status` raises the generic
`DSCGGError` for a `rate_limit` (429) response code, exactly as for any
other non-2xx code, so the client does not swallow the signal; but the
status-to-error table of `utils.raise_for_status` has no entry for 429,
and every call to that function raises `NameError` because the table
references undefined exception names. -/
theorem c1_rate_limit_generic_not_dedicated (body : List (String × JVal))
    (h : body.lookup "code" = some (.jstr "rate_limit")) :
    client_raise_for_status body =
      .error (.exc "DSCGGError" "429 (rate_limit): You have hit a rate limit") ∧
    utilsCorrelationStatusKeys.lookup 429 = none ∧
    (∀ status : Nat, utils_raise_for_status status =
      .error (.exc "NameError" "name \x27RequestEntityTooLarge\x27 is not defined")) ∧
    "RateLimited" ∉ exceptionsDefinedNames := by
  refine ⟨?_, rfl, fun _ => rfl, by decide⟩
  simp [client_raise_for_status, lookupK, h]
  rfl

theorem c1_witness :
    client_raise_for_status [("code", .jstr "rate_limit")] =
      .error (.exc "DSCGGError" "429 (rate_limit): You have hit a rate limit") ∧
    utilsCorrelationStatusKeys.lookup 429 = none ∧
    (∀ status : Nat, utils_raise_for_status status =
      .error (.exc "NameError" "name \x27RequestEntityTooLarge\x27 is not defined")) ∧
    "RateLimited" ∉ exceptionsDefinedNames :=
  c1_rate_limit_generic_not_dedicated [("code", .jstr "rate_limit")] rfl

/-- C1 counterexample: at status 429 the `utils.raise_for_status` mapping
has no entry (so, name resolution aside, nothing would be raised for it);
what its call actually raises is `NameError`, and what the client raises
for the 429 response code `rate_limit` is the generic `DSCGGError` — no
`RateLimited` exception exists anywhere in the package. -/
theorem c1_counterexample :
    utilsCorrelationStatusKeys.lookup 429 = none ∧
    utils_raise_for_status 429 =
      .error (.exc "NameError" "name \x27RequestEntityTooLarge\x27 is not defined") ∧
    client_raise_for_status [("code", .jstr "rate_limit")] =
      .error (.exc "DSCGGError" "429 (rate_limit): You have hit a rate limit") ∧
    "RateLimited" ∉ exceptionsDefinedNames :=
  ⟨rfl, rfl, rfl, by decide⟩

/-- C2 (code_bug): `Client.search` evaluates `link_type.lower()` even for
the default `link_type=None`, so a call that omits the argument raises
`AttributeError` before any request is built; a string argument never
raises: an unrecognized value (case-insensitively) leaves the `type`
parameter out of the query string, a recognized one appends
`&type=<lowercase value>`. -/
theorem c2_search_default_link_type_raises :
    buildSearchUrl "minecraft" none none =
      .error (.exc "AttributeError" "\x27NoneType\x27 object has no attribute \x27lower\x27") ∧
    buildSearchUrl "minecraft" none (some "SERVER") =
      .ok "https://api.dsc.gg/v2/search?q=minecraft&type=server" ∧
    buildSearchUrl "minecraft" none (some "invalid") =
      .ok "https://api.dsc.gg/v2/search?q=minecraft" :=
  ⟨rfl, rfl, rfl⟩

/-- C3 (code_bug): `Client._insert_embed_fields` raises for every embed:
`Embed` declares `__slots__`, so `embed.__dict__` raises
`AttributeError` (and the function would write into `body['meta']`, a key
no caller provides, raising `KeyError` anyway); consequently
`create_link` with any valid embed fails before issuing a request. -/
theorem c3_insert_embed_fields_raises :
    create_link_request "mylink" "discord.gg/abc"
        (some (.isEmbed ⟨some "hello", some "world", none, ⟨1754012⟩⟩)) none false =
      .error (.exc "AttributeError" "\x27Embed\x27 object has no attribute \x27__dict__\x27") ∧
    insert_embed_fields [("type", .jstr "server"), ("redirect", .jstr "discord.gg/abc")]
        ⟨some "hello", some "world", none, ⟨1754012⟩⟩ =
      .error (.exc "AttributeError" "\x27Embed\x27 object has no attribute \x27__dict__\x27") :=
  ⟨rfl, rfl⟩

/-- C4 (code_bug): `Embed.__init__` raises `TypeError` unless the
`color` keyword holds a `Colour` instance, because its intended str/int
branch tests `type(c) is Union[str, int]`, which is false for every
value; in particular an embed with the colour omitted, or given as an
int or as a `#rrggbb` string, cannot be constructed, while every other
field is optional once a `Colour` is supplied. -/
theorem c4_embed_init_requires_colour_instance :
    embed_init none none none .noneA =
      .error (.exc "TypeError"
        "Expected color to be \x27int\x27, \x27str\x27 or \x27dsc.Colour\x27 - got NoneType") ∧
    embed_init none none none (.intA 1754012) =
      .error (.exc "TypeError"
        "Expected color to be \x27int\x27, \x27str\x27 or \x27dsc.Colour\x27 - got int") ∧
    embed_init none none none (.strA "#1abc9c") =
      .error (.exc "TypeError"
        "Expected color to be \x27int\x27, \x27str\x27 or \x27dsc.Colour\x27 - got str") ∧
    embed_init (some "title") none none (.colourA ⟨1754012⟩) =
      .ok ⟨some "title", none, none, ⟨1754012⟩⟩ :=
  ⟨rfl, rfl, rfl, rfl⟩

/-- C5 (corrected): for any `X` that does not itself begin with one of
the three service host forms, `Client.format_link` returns `X` on all
four input forms, and `utils.format_link` does so on the `https`, bare
`dsc.gg/` and bare-slug forms — but `utils.format_link` has no case for
`http://dsc.gg/` and returns that form unchanged. -/
theorem c5_format_link_both_implementations (X : String)
    (h1 : strStarts X "https://dsc.gg/" = false)
    (h2 : strStarts X "http://dsc.gg/" = false)
    (h3 : strStarts X "dsc.gg/" = false) :
    client_format_link ("https://dsc.gg/" ++ X) = X ∧
    client_format_link ("http://dsc.gg/" ++ X) = X ∧
    client_format_link ("dsc.gg/" ++ X) = X ∧
    client_format_link X = X ∧
    utils_format_link ("https://dsc.gg/" ++ X) = X ∧
    utils_format_link ("dsc.gg/" ++ X) = X ∧
    utils_format_link X = X ∧
    utils_format_link ("http://dsc.gg/" ++ X) = "http://dsc.gg/" ++ X := by
  have hA : strStarts ("http://dsc.gg/" ++ X) "https://dsc.gg/" = false :=
    strStarts_false_of_take_ne _ _ _ 5 (by decide) (by decide) (by decide)
  have hB : strStarts ("dsc.gg/" ++ X) "https://dsc.gg/" = false :=
    strStarts_false_of_take_ne _ _ _ 1 (by decide) (by decide) (by decide)
  have hC : strStarts ("dsc.gg/" ++ X) "http://dsc.gg/" = false :=
    strStarts_false_of_take_ne _ _ _ 1 (by decide) (by decide) (by decide)
  have hD : strStarts ("http://dsc.gg/" ++ X) "dsc.gg/" = false :=
    strStarts_false_of_take_ne _ _ _ 1 (by decide) (by decide) (by decide)
  refine ⟨?_, ?_, ?_, ?_, ?_, ?_, ?_, ?_⟩
  · rw [client_format_link, if_pos (strStarts_append _ X)]
    exact strDrop_append _ X 15 rfl
  · rw [client_format_link, if_neg (not_true_of_false hA),
      if_pos (strStarts_append _ X)]
    exact strDrop_append _ X 14 rfl
  · rw [client_format_link, if_neg (not_true_of_false hB),
      if_neg (not_true_of_false hC), if_pos (strStarts_append _ X)]
    exact strDrop_append _ X 7 rfl
  · rw [client_format_link, if_neg (not_true_of_false h1),
      if_neg (not_true_of_false h2), if_neg (not_true_of_false h3)]
  · rw [utils_format_link, if_pos (strStarts_append _ X)]
    exact strDrop_append _ X 15 rfl
  · rw [utils_format_link, if_neg (not_true_of_false hB),
      if_pos (strStarts_append _ X)]
    exact strDrop_append _ X 7 rfl
  · rw [utils_format_link, if_neg (not_true_of_false h1),
      if_neg (not_true_of_false h3)]
  · rw [utils_format_link, if_neg (not_true_of_false hA),
      if_neg (not_true_of_false hD)]

theorem c5_witness :
    client_format_link ("https://dsc.gg/" ++ "abc") = "abc" ∧
    client_format_link ("http://dsc.gg/" ++ "abc") = "abc" ∧
    client_format_link ("dsc.gg/" ++ "abc") = "abc" ∧
    client_format_link "abc" = "abc" ∧
    utils_format_link ("https://dsc.gg/" ++ "abc") = "abc" ∧
    utils_format_link ("dsc.gg/" ++ "abc") = "abc" ∧
    utils_format_link "abc" = "abc" ∧
    utils_format_link ("http://dsc.gg/" ++ "abc") = "http://dsc.gg/" ++ "abc" :=
  c5_format_link_both_implementations "abc" (by decide) (by decide) (by decide)

/-- C5 counterexample: `utils.format_link` does not strip the
`http://dsc.gg/` form, so the claimed identity fails on it for that
implementation at the concrete slug `abc`. -/
theorem c5_counterexample :
    utils_format_link "http://dsc.gg/abc" = "http://dsc.gg/abc" ∧
    utils_format_link "http://dsc.gg/abc" ≠ "abc" :=
  ⟨rfl, by decide⟩

/-- C6 (confirmed): `Client.match_link_type` is total — for every input
it returns a tag and raises nothing — and classifies exactly by the
scheme-completed, last-slash-truncated prefix: `https://discord.gg/` ↦
`server`, `https://discord.com/template/` ↦ `template`,
`https://discord.com/oauth2/` ↦ `bot`, and anything else — including
input with no slash after the host — falls through to the generic tag
`link`; the three concrete examples of the spec evaluate accordingly. -/
theorem c6_classify_redirect :
    (∀ s : String, ∃ tag, client_match_link_type s = .ok tag) ∧
    (∀ s t : String, truncateToLastSlash (schemeComplete s) = some t →
        client_match_link_type s = .ok (spec_classify_tag t)) ∧
    client_match_link_type "https://discord.gg/abc" = .ok "server" ∧
    client_match_link_type "discord.com/oauth2/xyz" = .ok "bot" ∧
    client_match_link_type "example.com/foo" = .ok "link" ∧
    client_match_link_type "noslashhere" = .ok "link" :=
  ⟨client_match_link_type_total, client_match_link_type_of_truncate, rfl, rfl, rfl, rfl⟩

theorem c6_witness :
    client_match_link_type "https://discord.gg/q" = .ok (spec_classify_tag "https://discord.gg/") :=
  c6_classify_redirect.2.1 "https://discord.gg/q" "https://discord.gg/" (by decide)

/-- C7 (corrected): `get_user` and `get_link` return `None` on a 404
response without raising (there is no configurable error policy); on a
200 response `get_link` decodes the payload into a `Link`, while
`get_user` decodes the payload into a `User` only when the body carries
a truthy `success` flag — a 200 response whose `success` is false does
not produce a `User`. -/
theorem c7_get_user_get_link_dispatch :
    (∀ resp : ApiResponse, resp.status = 404 →
        get_user resp = .ok none ∧ get_link resp = .ok none) ∧
    (∀ (resp : ApiResponse) (sv : JVal) (pd : List (String × JVal)),
        resp.status = 200 → resp.body.lookup "success" = some sv →
        jTruthy sv = true → resp.body.lookup "payload" = some (.jobj pd) →
        get_user resp = (user_from_dict pd).map some) ∧
    (∀ (resp : ApiResponse) (pd : List (String × JVal)),
        resp.status = 200 → resp.body.lookup "payload" = some (.jobj pd) →
        get_link resp = (link_from_dict pd).map some) := by
  refine ⟨?_, ?_, ?_⟩
  · intro resp h
    constructor
    · simp only [get_user, h]
      rfl
    · simp only [get_link, h]
      rfl
  · intro resp sv pd h hs ht hp
    simp only [get_user, h, lookupK, hs, ht, hp, asDict]
    cases hu : user_from_dict pd <;>
      simp [hu, ht, exc_bind_ok, exc_bind_error, exc_pure, exc_map_ok, exc_map_error,
        Except.map]
  · intro resp pd h hp
    simp only [get_link, h, lookupK, hp, asDict]
    cases hl : link_from_dict pd <;>
      simp [hl, exc_bind_ok, exc_bind_error, exc_pure, exc_map_ok, exc_map_error,
        Except.map]

theorem c7_witness :
    (get_user ⟨404, []⟩ = .ok none ∧ get_link ⟨404, []⟩ = .ok none) ∧
    get_user ⟨200, [("success", .jbool true),
        ("payload", .jobj [("id", .jint 5), ("joined_at", .jint 0)])]⟩ =
      (user_from_dict [("id", .jint 5), ("joined_at", .jint 0)]).map some :=
  ⟨c7_get_user_get_link_dispatch.1 ⟨404, []⟩ rfl,
   c7_get_user_get_link_dispatch.2.1
     ⟨200, [("success", .jbool true),
            ("payload", .jobj [("id", .jint 5), ("joined_at", .jint 0)])]⟩
     (.jbool true) [("id", .jint 5), ("joined_at", .jint 0)] rfl rfl rfl rfl⟩

/-- C7 counterexample: a 200 response whose body has `success: false`
(and a payload that would decode into a `User` perfectly well) makes
`get_user` return `None` rather than a decoded `User`, refuting the
unqualified status-200 part of the claim. -/
theorem c7_counterexample :
    get_user ⟨200, [("success", .jbool false), ("code", .jstr "payload_received"),
        ("payload", .jobj [("id", .jint 1), ("joined_at", .jint 0)])]⟩ = .ok none ∧
    user_from_dict [("id", .jint 1), ("joined_at", .jint 0)] =
      .ok ⟨1, .jbool false, .jbool false, ⟨0⟩, .jbool false⟩ :=
  ⟨rfl, rfl⟩

/-- C8 (confirmed): passing a non-`Embed`, non-`None` value as the
`embed` argument makes `create_link` and `update_link` raise `TypeError`
synchronously while building the request body, so no request value is
ever produced and nothing is sent. -/
theorem c8_non_embed_raises_before_request (link redirect tn : String)
    (ored password : Option String) (unlisted : Bool) :
    create_link_request link redirect (some (.notEmbed tn)) password unlisted =
      .error (.exc "TypeError" ("Embed must be type \x27dsc.Embed, got \x27" ++ tn ++ "\x27")) ∧
    update_link_request link ored (some (.notEmbed tn)) password unlisted =
      .error (.exc "TypeError" ("Embed must be type \x27dsc.Embed, got \x27" ++ tn ++ "\x27")) := by
  constructor
  · rw [create_link_request]
    obtain ⟨t, ht⟩ := client_match_link_type_total
      (if strStarts redirect "https://" then redirect.replace "https://" "" else redirect)
    rw [ht]
    rfl
  · rw [update_link_request]
    rfl

/-- C9 (confirmed): the colour value round-trips exactly —
`Colour("#1abc9c")` renders back to `"#1abc9c"`,
`Colour.from_rgb(26, 188, 156)` renders to `"#1abc9c"`, the `r`/`g`/`b`
accessors of `from_rgb(r, g, b)` return `r`, `g`, `b` for components in
`[0, 255]`, and for every `v` in `[0, 0xFFFFFF]` parsing the canonical
`#rrggbb` rendering of `Colour(v)` (which is exactly what the string
constructor does) gives back `v`. -/
theorem c9_colour_round_trip :
    ((colour_of_str "#1abc9c").map colour_str = .ok "#1abc9c") ∧
    (colour_str (Colour.fromRgb 26 188 156) = "#1abc9c") ∧
    (∀ r g b : Nat, r ≤ 255 → g ≤ 255 → b ≤ 255 →
        (Colour.fromRgb r g b).r = r ∧ (Colour.fromRgb r g b).g = g ∧
        (Colour.fromRgb r g b).b = b) ∧
    (∀ v : Nat, v ≤ 0xFFFFFF → colour_of_str (colour_str ⟨v⟩) = .ok ⟨v⟩) :=
  ⟨rfl, rfl, fromRgb_accessors, fun v _ => colour_of_str_colour_str v⟩

theorem c9_witness :
    ((Colour.fromRgb 26 188 156).r = 26 ∧ (Colour.fromRgb 26 188 156).g = 188 ∧
      (Colour.fromRgb 26 188 156).b = 156) ∧
    colour_of_str (colour_str ⟨1754012⟩) = .ok ⟨1754012⟩ :=
  ⟨c9_colour_round_trip.2.2.1 26 188 156 (by decide) (by decide) (by decide),
   c9_colour_round_trip.2.2.2 1754012 (by decide)⟩

/-- C10 (confirmed): `get_user_apps` builds exactly the URL that
`get_user_links` builds (the `/user/{id}/links` endpoint — no apps
endpoint exists), decodes each element of a 200 payload into an `App`,
and returns the empty list on a 404 response without raising. -/
theorem c10_user_apps_same_endpoint :
    (∀ user_id : Int, get_user_apps_url user_id = get_user_links_url user_id) ∧
    (∀ resp : ApiResponse, resp.status = 404 → get_user_apps resp = .ok []) ∧
    (∀ (resp : ApiResponse) (xs : List JVal), resp.status = 200 →
        resp.body.lookup "payload" = some (.jarr xs) →
        get_user_apps resp = xs.mapM app_from_val) := by
  refine ⟨fun _ => rfl, ?_, ?_⟩
  · intro resp h
    simp only [get_user_apps, h]
    rfl
  · intro resp xs h hp
    simp only [get_user_apps, h, lookupK, hp, pyIter]
    simp [exc_bind_ok]

theorem c10_witness :
    get_user_apps_url 42 = get_user_links_url 42 ∧
    get_user_apps ⟨404, []⟩ = .ok [] ∧
    get_user_apps ⟨200, [("payload", .jarr [])]⟩ = ([] : List JVal).mapM app_from_val :=
  ⟨c10_user_apps_same_endpoint.1 42,
   c10_user_apps_same_endpoint.2.1 ⟨404, []⟩ rfl,
   c10_user_apps_same_endpoint.2.2 ⟨200, [("payload", .jarr [])]⟩ [] rfl rfl⟩

end Dsc
